import Mathlib

/-!
# Verification of the rag-mini-platform chat client

A shallow embedding of the frontend logic of the rag-mini-platform
repository (`src/frontend/src`), covering:

* the type declarations of `types/index.ts` (`QueryRequest`,
  `QueryResponse`, `ChatMessage`, `DocumentInfo`, `SystemStats`);
* the chat session logic of `components/chat-interface.tsx`
  (`loadConversationHistory`, `saveMessageToDatabase`, `handleSubmit`);
* the upload validation of `components/document-upload.tsx`
  (`handleFileUpload`);
* the stats fetching of `services/api.ts` / `App.tsx` (`fetchStats`) and
  the rendering of `components/system-stats.tsx`.

Effectful handlers are modelled as pure functions from the component
state and the environment's responses (HTTP call results, write
success/failure flags) to the new component state together with a trace
of emitted `Action`s: every HTTP call, toast notification and console
log the handler performs, in program order.  Fallible calls carry an
`ok : Bool` recording whether the environment accepted them, so that
"persisted" is distinguishable from "attempted".
-/

namespace RagMini

/-- JavaScript `String.prototype.trim`: strip whitespace from both ends
of a character list. -/
def trimChars (cs : List Char) : List Char :=
  ((cs.dropWhile Char.isWhitespace).reverse.dropWhile Char.isWhitespace).reverse

/-- JavaScript `inputValue.trim()`. -/
def jsTrim (s : String) : String := String.mk (trimChars s.data)

/-- JavaScript `name.toLowerCase()`, character-wise. -/
def jsToLower (s : String) : String := String.mk (s.data.map Char.toLower)

/-- `ChatMessage` from `types/index.ts`: role, content, timestamp and an
optional source-label list.  The TypeScript role union
`"user" | "assistant"` is modelled as `String`. -/
structure ChatMessage where
  role : String
  content : String
  timestamp : String
  sources : Option (List String)
  deriving Repr, DecidableEq

/-- One entry of `conversation_history`: the `{role, content}` projection
of a chat message (`Array<{role: string; content: string}>` in
`types/index.ts`). -/
structure RoleContent where
  role : String
  content : String
  deriving Repr, DecidableEq

/-- `QueryRequest` from `types/index.ts`.  `top_k` and `document_filter`
are optional fields (`?:`) and are modelled with `Option`. -/
structure QueryRequest where
  query : String
  conversation_history : List RoleContent
  top_k : Option Nat
  document_filter : Option String
  deriving Repr, DecidableEq

/-- `QueryResponse` from `types/index.ts`.  The interface declares five
fields: `response`, `context_used`, `sources`, `conversation_id`,
`timestamp`. -/
structure QueryResponse where
  response : String
  context_used : List String
  sources : List String
  conversation_id : String
  timestamp : String
  deriving Repr, DecidableEq

/-- The field names of the `QueryResponse` interface, in declaration
order, read off `types/index.ts` lines 16-22. -/
def queryResponseFields : List String :=
  ["response", "context_used", "sources", "conversation_id", "timestamp"]

/-- `DocumentInfo` from `types/index.ts`. -/
structure DocumentInfo where
  document_id : String
  filename : String
  upload_date : String
  chunks_count : Nat
  file_size : Nat
  deriving Repr, DecidableEq

/-- `SystemStats` from `types/index.ts`: exactly the two aggregates. -/
structure SystemStats where
  total_documents : Nat
  total_chunks : Nat
  deriving Repr, DecidableEq

/-- The field names of the `SystemStats` interface, in declaration
order, read off `types/index.ts` lines 38-41. -/
def systemStatsFields : List String :=
  ["total_documents", "total_chunks"]

/-- A conversation summary as returned by
`apiService.getDocumentConversations` (the chat interface only reads its
`id`). -/
structure ConvInfo where
  id : String
  deriving Repr, DecidableEq

/-- A stored message as returned by
`apiService.getConversationMessages`; `loadConversationHistory` reads
`role`, `content`, `timestamp` and `sources` from it. -/
structure StoredMessage where
  role : String
  content : String
  timestamp : String
  sources : Option (List String)
  deriving Repr, DecidableEq

/-- The conversion performed inside `loadConversationHistory`:
`conversationMessages.map(msg => ({role, content, timestamp, sources}))`. -/
def storedToChat (m : StoredMessage) : ChatMessage :=
  ⟨m.role, m.content, m.timestamp, m.sources⟩

/-- The observable effects a handler can emit, in program order.  HTTP
calls that can fail carry `ok : Bool`: the environment's answer
(`true` = the call succeeded, `false` = it threw). -/
inductive Action where
  | listConversations (documentId : String) (ok : Bool)
  | getMessages (conversationId : String) (ok : Bool)
  | createConversation (documentId : String) (ok : Bool)
  | apiSaveMessage (conversationId role content : String)
      (sources : Option (List String)) (ok : Bool)
  | queryRequest (req : QueryRequest)
  | uploadRequest (filename : String) (ok : Bool)
  | getStatsRequest
  | toastError (msg : String)
  | toastSuccess (msg : String)
  | toastLoading (msg : String)
  | logError (msg : String)
  deriving Repr, DecidableEq

/-- An action is user-visible iff it is a toast notification (console
logs and HTTP traffic are not shown to the user). -/
def Action.isUserVisible : Action → Bool
  | .toastError _ => true
  | .toastSuccess _ => true
  | .toastLoading _ => true
  | _ => false

/-- An action is a write to server-side state (document, chunk,
conversation or message state) iff it is an upload, a conversation
creation or a message save. -/
def Action.isWrite : Action → Bool
  | .createConversation _ _ => true
  | .apiSaveMessage _ _ _ _ _ => true
  | .uploadRequest _ _ => true
  | _ => false

/-- An action is a `createConversation` call (of either outcome). -/
def Action.isCreate : Action → Bool
  | .createConversation _ _ => true
  | _ => false

/-- An action is a query request to the query intake. -/
def Action.isQuery : Action → Bool
  | .queryRequest _ => true
  | _ => false

/-- An action is an upload request to the ingestion intake. -/
def Action.isUpload : Action → Bool
  | .uploadRequest _ _ => true
  | _ => false

/-- An action is a message append that the Conversation Store accepted
(an `apiSaveMessage` whose HTTP call succeeded). -/
def Action.isPersistedSave : Action → Bool
  | .apiSaveMessage _ _ _ _ ok => ok
  | _ => false

/-- The mutable state of the `ChatInterface` component that the chat
handlers read and write (`useState` hooks of `chat-interface.tsx`). -/
structure ChatState where
  messages : List ChatMessage
  inputValue : String
  isLoading : Bool
  selectedDocument : Option String
  currentConversationId : Option String
  deriving Repr, DecidableEq

/-- `saveMessageToDatabase` (`chat-interface.tsx` lines 115-128): returns
immediately when no conversation id is set; otherwise POSTs
`{role, content, sources}` of the message.  A failed POST is caught and
logged to the console only — the comment in the source reads "Don't show
error to user as this is background operation" — and the function
returns normally either way.  `writeOk` is the environment's answer to
the POST. -/
def saveMessageToDatabase (currentConversationId : Option String)
    (message : ChatMessage) (writeOk : Bool) : List Action :=
  match currentConversationId with
  | none => []
  | some cid =>
    if writeOk then
      [Action.apiSaveMessage cid message.role message.content message.sources true]
    else
      [Action.apiSaveMessage cid message.role message.content message.sources false,
       Action.logError "Failed to save message to database:"]

/-- The apology text added to the UI when the query request fails
(`chat-interface.tsx` lines 189-194). -/
def queryErrorText : String :=
  "Sorry, I encountered an error while processing your query. Please try again."

/-- `handleSubmit` (`chat-interface.tsx` lines 130-199), as a pure
function of the component state and of the environment:
`userTimestamp` stands for `new Date().toISOString()` taken when the
user message is built, `userSaveOk` / `assistantSaveOk` are the
Conversation Store's answers to the two save POSTs, `outcome` is the
query intake's answer (`some resp` = HTTP 200 with body `resp`,
`none` = the request threw) and `errorTimestamp` stands for the
`new Date().toISOString()` of the apology message.  Returns the new
component state and the trace of emitted actions in program order.

The guard mirrors
`if (!inputValue.trim() || isLoading || !selectedDocument || !currentConversationId) return;`.
`conversationHistory` is built from the `messages` binding captured
before `setMessages` appends the user message, so it covers exactly the
turns displayed before the current query. -/
def handleSubmit (st : ChatState) (userTimestamp : String) (userSaveOk : Bool)
    (outcome : Option QueryResponse) (assistantSaveOk : Bool)
    (errorTimestamp : String) : ChatState × List Action :=
  match st.selectedDocument, st.currentConversationId with
  | some doc, some cid =>
    if jsTrim st.inputValue = "" ∨ st.isLoading = true then (st, [])
    else
      let userMessage : ChatMessage := ⟨"user", st.inputValue, userTimestamp, none⟩
      let saveUser := saveMessageToDatabase (some cid) userMessage userSaveOk
      let conversationHistory := st.messages.map (fun m => RoleContent.mk m.role m.content)
      let req : QueryRequest :=
        ⟨st.inputValue, conversationHistory, some 5, some doc⟩
      match outcome with
      | some resp =>
        let assistantMessage : ChatMessage :=
          ⟨"assistant", resp.response, resp.timestamp, some resp.sources⟩
        let saveAssistant := saveMessageToDatabase (some cid) assistantMessage assistantSaveOk
        ({ st with
            messages := st.messages ++ [userMessage, assistantMessage],
            inputValue := "",
            isLoading := false },
         saveUser
           ++ [Action.toastLoading "Processing your query...",
               Action.queryRequest req]
           ++ saveAssistant
           ++ [Action.toastSuccess "Response received!"])
      | none =>
        let errorMessage : ChatMessage :=
          ⟨"assistant", queryErrorText, errorTimestamp, none⟩
        ({ st with
            messages := st.messages ++ [userMessage, errorMessage],
            inputValue := "",
            isLoading := false },
         saveUser
           ++ [Action.toastLoading "Processing your query...",
               Action.queryRequest req,
               Action.logError "Query error:",
               Action.toastError "Failed to get response. Please try again."])
  | _, _ => (st, [])

/-- The environment's answers to the HTTP calls `loadConversationHistory`
can make: `none` models a call that threw.  `createResult` answers the
`createConversation` call of the empty-list branch,
`fallbackCreateResult` the one inside the `catch` block (the source can
call `createConversation` twice on a failing run). -/
structure LoadEnv where
  listResult : Option (List ConvInfo)
  msgsResult : String → Option (List StoredMessage)
  createResult : Option String
  fallbackCreateResult : Option String

/-- The `catch` block of `loadConversationHistory` (`chat-interface.tsx`
lines 86-96): log, toast an error, then try to create a fresh
conversation as fallback; on fallback failure only log, leaving the
component state `st0` untouched. -/
def loadFallback (documentId : String) (env : LoadEnv)
    (st0 : Option String × List ChatMessage) (tr : List Action) :
    (Option String × List ChatMessage) × List Action :=
  let tr := tr ++ [Action.logError "Error loading conversation history:",
                   Action.toastError "Failed to load conversation history"]
  match env.fallbackCreateResult with
  | some cid => ((some cid, []), tr ++ [Action.createConversation documentId true])
  | none =>
      (st0, tr ++ [Action.createConversation documentId false,
                   Action.logError "Failed to create new conversation:"])

/-- `loadConversationHistory` (`chat-interface.tsx` lines 51-100) as a
pure function of the environment `env` and of the component state `st0`
(its `currentConversationId` and `messages` before the call).  Returns
the new `(currentConversationId, messages)` pair and the trace of
emitted actions.  On a non-empty conversation list the first element
`conversations[0]` is reused and its stored messages are loaded; on an
empty list a single conversation is created and the message list is
reset to `[]`; any thrown call lands in `loadFallback`. -/
def loadConversationHistory (documentId : String) (env : LoadEnv)
    (st0 : Option String × List ChatMessage) :
    (Option String × List ChatMessage) × List Action :=
  match env.listResult with
  | none => loadFallback documentId env st0 [Action.listConversations documentId false]
  | some convs =>
    match convs with
    | latest :: _ =>
      match env.msgsResult latest.id with
      | some msgs =>
        ((some latest.id, msgs.map storedToChat),
         [Action.listConversations documentId true,
          Action.getMessages latest.id true,
          Action.toastSuccess "Loaded previous conversation!"])
      | none =>
        loadFallback documentId env st0
          [Action.listConversations documentId true,
           Action.getMessages latest.id false]
    | [] =>
      match env.createResult with
      | some cid =>
        ((some cid, []),
         [Action.listConversations documentId true,
          Action.createConversation documentId true])
      | none =>
        loadFallback documentId env st0
          [Action.listConversations documentId true,
           Action.createConversation documentId false]

/-- The allowed upload extensions (`document-upload.tsx` line 18). -/
def allowedTypes : List String := [".txt", ".pdf"]

/-- Position of the last `'.'` in a character list, or `none`
(JavaScript `lastIndexOf(".") = -1`). -/
def lastDotPos : List Char → Option Nat
  | [] => none
  | c :: cs =>
    match lastDotPos cs with
    | some i => some (i + 1)
    | none => if c = '.' then some 0 else none

/-- `file.name.toLowerCase().substring(file.name.lastIndexOf("."))`
(`document-upload.tsx` lines 19-21).  When the name has no dot,
`substring(-1)` in JavaScript clamps to `0` and yields the whole
lowercased name. -/
def fileExtension (name : String) : String :=
  let lower := jsToLower name
  match lastDotPos name.data with
  | some i => String.mk (lower.data.drop i)
  | none => lower

/-- `handleFileUpload` (`document-upload.tsx` lines 14-51): rejects a
file whose computed extension is not in `allowedTypes`, then a file
whose size exceeds `10 * 1024 * 1024` bytes, each with only an error
toast; otherwise sets `isUploading`, issues the upload request
(`uploadOk` is the environment's answer) and toasts the outcome.  The
returned `Bool` records whether `setIsUploading` was touched; the
success branch additionally runs the `onUploadSuccess` callback, not
modelled here. -/
def handleFileUpload (name : String) (size : Nat) (uploadOk : Bool) :
    Bool × List Action :=
  if (allowedTypes.contains (fileExtension name)) = false then
    (false, [Action.toastError "Please upload a PDF or TXT file"])
  else if 10 * 1024 * 1024 < size then
    (false, [Action.toastError "File size must be less than 10MB"])
  else
    (true,
     [Action.toastLoading "Uploading document...",
      Action.uploadRequest name uploadOk]
       ++ if uploadOk then
            [Action.toastSuccess ("Document \"" ++ name ++ "\" uploaded successfully!")]
          else
            [Action.logError "Upload error:",
             Action.toastError "Failed to upload document. Please try again."])

/-- The client-side state that `App.tsx` and the chat interface hold
about documents, stats and the current conversation. -/
structure ClientState where
  documents : List DocumentInfo
  stats : SystemStats
  messages : List ChatMessage
  currentConversationId : Option String
  deriving Repr, DecidableEq

/-- `fetchStats` (`App.tsx` lines 36-43): GET `/stats` via
`apiService.getStats` and store the result in the `stats` state; a
thrown call is only logged. -/
def fetchStats (st : ClientState) (fetched : Option SystemStats) :
    ClientState × List Action :=
  match fetched with
  | some s => ({ st with stats := s }, [Action.getStatsRequest])
  | none => (st, [Action.getStatsRequest, Action.logError "Error fetching stats:"])

/-- The `SystemStats` component (`system-stats.tsx`) is a pure render:
it emits no actions and reads exactly the two aggregates. -/
def renderSystemStats (stats : SystemStats) : List Action × (Nat × Nat) :=
  ([], (stats.total_documents, stats.total_chunks))

/-! ## Helper lemmas -/

/-- Concrete chat state used to witness the `handleSubmit` theorems. -/
def sampleState : ChatState :=
  ⟨[⟨"user", "old", "t0", none⟩], "hello", false, some "doc1", some "conv1"⟩

/-- Concrete query response used to witness the `handleSubmit` theorems. -/
def sampleResp : QueryResponse := ⟨"answer", ["ctx"], ["src1"], "conv1", "ts1"⟩

theorem jsTrim_ne_empty {s : String} (h : jsTrim s ≠ "") : s ≠ "" :=
  fun he => h (by rw [he]; rfl)

/-- `handleSubmit` on a guard-satisfying state with a successful query:
the resulting state and full trace, in closed form. -/
theorem handleSubmit_eq_success (st : ChatState) (doc cid uts ets : String)
    (usv asv : Bool) (resp : QueryResponse)
    (hdoc : st.selectedDocument = some doc)
    (hcid : st.currentConversationId = some cid)
    (hin : jsTrim st.inputValue ≠ "") (hload : st.isLoading = false) :
    handleSubmit st uts usv (some resp) asv ets =
      ({ st with
          messages := st.messages ++
            [⟨"user", st.inputValue, uts, none⟩,
             ⟨"assistant", resp.response, resp.timestamp, some resp.sources⟩],
          inputValue := "",
          isLoading := false },
       saveMessageToDatabase (some cid) ⟨"user", st.inputValue, uts, none⟩ usv
         ++ [Action.toastLoading "Processing your query...",
             Action.queryRequest
               ⟨st.inputValue, st.messages.map (fun m => ⟨m.role, m.content⟩),
                some 5, some doc⟩]
         ++ saveMessageToDatabase (some cid)
              ⟨"assistant", resp.response, resp.timestamp, some resp.sources⟩ asv
         ++ [Action.toastSuccess "Response received!"]) := by
  simp [handleSubmit, hdoc, hcid, hin, hload]

/-- `handleSubmit` on a guard-satisfying state with a failing query:
the resulting state and full trace, in closed form. -/
theorem handleSubmit_eq_failure (st : ChatState) (doc cid uts ets : String)
    (usv asv : Bool)
    (hdoc : st.selectedDocument = some doc)
    (hcid : st.currentConversationId = some cid)
    (hin : jsTrim st.inputValue ≠ "") (hload : st.isLoading = false) :
    handleSubmit st uts usv none asv ets =
      ({ st with
          messages := st.messages ++
            [⟨"user", st.inputValue, uts, none⟩,
             ⟨"assistant", queryErrorText, ets, none⟩],
          inputValue := "",
          isLoading := false },
       saveMessageToDatabase (some cid) ⟨"user", st.inputValue, uts, none⟩ usv
         ++ [Action.toastLoading "Processing your query...",
             Action.queryRequest
               ⟨st.inputValue, st.messages.map (fun m => ⟨m.role, m.content⟩),
                some 5, some doc⟩,
             Action.logError "Query error:",
             Action.toastError "Failed to get response. Please try again."]) := by
  simp [handleSubmit, hdoc, hcid, hin, hload]

/-! ## Claim theorems -/

/-- C3: for a successfully processed query turn, the originating user
query and the assistant response are both appended to the Conversation
Store for the current conversation, the user message before the query
request is issued and the assistant message after the response arrives,
in that order: the full trace is the user save, then the query request,
then the assistant save. -/
theorem handleSubmit_appends_in_order (st : ChatState) (doc cid uts ets : String)
    (resp : QueryResponse)
    (hdoc : st.selectedDocument = some doc)
    (hcid : st.currentConversationId = some cid)
    (hin : jsTrim st.inputValue ≠ "") (hload : st.isLoading = false) :
    (handleSubmit st uts true (some resp) true ets).2 =
      [Action.apiSaveMessage cid "user" st.inputValue none true,
       Action.toastLoading "Processing your query...",
       Action.queryRequest
         ⟨st.inputValue, st.messages.map (fun m => ⟨m.role, m.content⟩),
          some 5, some doc⟩,
       Action.apiSaveMessage cid "assistant" resp.response (some resp.sources) true,
       Action.toastSuccess "Response received!"] := by
  rw [handleSubmit_eq_success st doc cid uts ets true true resp hdoc hcid hin hload]
  simp [saveMessageToDatabase]

theorem handleSubmit_appends_in_order_witness :
    (handleSubmit sampleState "t1" true (some sampleResp) true "te").2 =
      [Action.apiSaveMessage "conv1" "user" "hello" none true,
       Action.toastLoading "Processing your query...",
       Action.queryRequest ⟨"hello", [⟨"user", "old"⟩], some 5, some "doc1"⟩,
       Action.apiSaveMessage "conv1" "assistant" "answer" (some ["src1"]) true,
       Action.toastSuccess "Response received!"] := by
  have h := handleSubmit_appends_in_order sampleState "doc1" "conv1" "t1" "te"
    sampleResp rfl rfl (by decide) rfl
  simpa [sampleState, sampleResp] using h

/-- C4: every chat submission issues exactly one query request, of shape
`(query, conversation_history, top_k, document_filter)` with
`query = inputValue` (non-empty), `top_k = 5 ≥ 1`,
`document_filter = the selected document`, and `conversation_history`
the `{role, content}` projection of the turns displayed before the
current user query — the current query itself is not in the history:
the user message is appended to the display after `st.messages`. -/
theorem handleSubmit_request_shape (st : ChatState) (doc cid uts ets : String)
    (usv asv : Bool) (outcome : Option QueryResponse)
    (hdoc : st.selectedDocument = some doc)
    (hcid : st.currentConversationId = some cid)
    (hin : jsTrim st.inputValue ≠ "") (hload : st.isLoading = false) :
    (handleSubmit st uts usv outcome asv ets).2.filter Action.isQuery =
      [Action.queryRequest
        ⟨st.inputValue, st.messages.map (fun m => ⟨m.role, m.content⟩),
         some 5, some doc⟩] ∧
    st.inputValue ≠ "" ∧ (1 : Nat) ≤ 5 ∧
    ∃ tail, (handleSubmit st uts usv outcome asv ets).1.messages =
      st.messages ++ [⟨"user", st.inputValue, uts, none⟩] ++ tail := by
  cases outcome with
  | none =>
    rw [handleSubmit_eq_failure st doc cid uts ets usv asv hdoc hcid hin hload]
    refine ⟨?_, jsTrim_ne_empty hin, by norm_num,
      ⟨[⟨"assistant", queryErrorText, ets, none⟩], by simp⟩⟩
    cases usv <;> simp [saveMessageToDatabase, Action.isQuery]
  | some resp =>
    rw [handleSubmit_eq_success st doc cid uts ets usv asv resp hdoc hcid hin hload]
    refine ⟨?_, jsTrim_ne_empty hin, by norm_num,
      ⟨[⟨"assistant", resp.response, resp.timestamp, some resp.sources⟩], by simp⟩⟩
    cases usv <;> cases asv <;> simp [saveMessageToDatabase, Action.isQuery]

theorem handleSubmit_request_shape_witness :
    ((handleSubmit sampleState "t1" true (some sampleResp) true "te").2.filter
        Action.isQuery =
      [Action.queryRequest ⟨"hello", [⟨"user", "old"⟩], some 5, some "doc1"⟩]) ∧
    ("hello" : String) ≠ "" := by
  have h := handleSubmit_request_shape sampleState "doc1" "conv1" "t1" "te"
    true true (some sampleResp) rfl rfl (by decide) rfl
  exact ⟨by simpa [sampleState] using h.1, by decide⟩

/-- C5: on a successful query the assistant message that is displayed
(last of the message list) carries exactly the server-assigned
timestamp, the response text and the sources list of the query
response, and the persisted assistant message carries that same
response text and sources list, unchanged. -/
theorem handleSubmit_response_unchanged (st : ChatState) (doc cid uts ets : String)
    (usv : Bool) (resp : QueryResponse)
    (hdoc : st.selectedDocument = some doc)
    (hcid : st.currentConversationId = some cid)
    (hin : jsTrim st.inputValue ≠ "") (hload : st.isLoading = false) :
    (handleSubmit st uts usv (some resp) true ets).1.messages.getLast? =
      some ⟨"assistant", resp.response, resp.timestamp, some resp.sources⟩ ∧
    Action.apiSaveMessage cid "assistant" resp.response (some resp.sources) true ∈
      (handleSubmit st uts usv (some resp) true ets).2 := by
  rw [handleSubmit_eq_success st doc cid uts ets usv true resp hdoc hcid hin hload]
  have hlast : ∀ (l : List ChatMessage) (u a : ChatMessage),
      (l ++ [u, a]).getLast? = some a := by
    intro l u a
    rw [show l ++ [u, a] = (l ++ [u]) ++ [a] by simp]
    exact List.getLast?_concat _
  refine ⟨hlast _ _ _, ?_⟩
  cases usv <;> simp [saveMessageToDatabase]

theorem handleSubmit_response_unchanged_witness :
    (handleSubmit sampleState "t1" true (some sampleResp) true "te").1.messages.getLast? =
      some ⟨"assistant", "answer", "ts1", some ["src1"]⟩ := by
  have h := handleSubmit_response_unchanged sampleState "doc1" "conv1" "t1" "te"
    true sampleResp rfl rfl (by decide) rfl
  simpa [sampleResp] using h.1

theorem apiSave_mem_save {cid : String} {m : ChatMessage} {b : Bool}
    {c r co : String} {s : Option (List String)} {ok : Bool}
    (h : Action.apiSaveMessage c r co s ok ∈ saveMessageToDatabase (some cid) m b) :
    c = cid := by
  cases b <;> simp [saveMessageToDatabase] at h <;> exact h.1

theorem query_not_mem_save (req : QueryRequest) (o : Option String)
    (m : ChatMessage) (b : Bool) :
    Action.queryRequest req ∉ saveMessageToDatabase o m b := by
  cases o <;> cases b <;> simp [saveMessageToDatabase]

/-- C9: a query request is issued only when the trimmed input is
non-empty, no query is in flight, a document is selected and a
conversation id exists; every issued request carries a non-empty query
string and the selected document as filter, and every message save
targets the current (existing) conversation id. -/
theorem handleSubmit_only_when_ready (st : ChatState) (uts ets : String)
    (usv asv : Bool) (outcome : Option QueryResponse) :
    (∀ req, Action.queryRequest req ∈ (handleSubmit st uts usv outcome asv ets).2 →
      jsTrim st.inputValue ≠ "" ∧ st.isLoading = false ∧
      st.selectedDocument.isSome = true ∧ st.currentConversationId.isSome = true ∧
      req.query ≠ "" ∧ req.document_filter = st.selectedDocument) ∧
    (∀ c r co s ok,
      Action.apiSaveMessage c r co s ok ∈ (handleSubmit st uts usv outcome asv ets).2 →
      st.currentConversationId = some c) := by
  rcases hdoc : st.selectedDocument with _ | doc
  · constructor
    · intro req hreq
      simp [handleSubmit, hdoc] at hreq
    · intro c r co s ok h
      simp [handleSubmit, hdoc] at h
  · rcases hcid : st.currentConversationId with _ | cid
    · constructor
      · intro req hreq
        simp [handleSubmit, hdoc, hcid] at hreq
      · intro c r co s ok h
        simp [handleSubmit, hdoc, hcid] at h
    · by_cases hg : jsTrim st.inputValue = "" ∨ st.isLoading = true
      · constructor
        · intro req hreq
          simp only [handleSubmit, hdoc, hcid] at hreq
          rw [if_pos hg] at hreq
          simp at hreq
        · intro c r co s ok h
          simp only [handleSubmit, hdoc, hcid] at h
          rw [if_pos hg] at h
          simp at h
      · push_neg at hg
        have hin : jsTrim st.inputValue ≠ "" := hg.1
        have hload : st.isLoading = false := by simpa using hg.2
        cases outcome with
        | some resp =>
          rw [handleSubmit_eq_success st doc cid uts ets usv asv resp hdoc hcid hin hload]
          constructor
          · intro req hreq
            simp [List.mem_append, query_not_mem_save] at hreq
            subst hreq
            exact ⟨hin, hload, rfl, rfl, jsTrim_ne_empty hin, rfl⟩
          · intro c r co s ok h
            simp [List.mem_append] at h
            rcases h with h | h <;> rw [apiSave_mem_save h]
        | none =>
          rw [handleSubmit_eq_failure st doc cid uts ets usv asv hdoc hcid hin hload]
          constructor
          · intro req hreq
            simp [List.mem_append, query_not_mem_save] at hreq
            subst hreq
            exact ⟨hin, hload, rfl, rfl, jsTrim_ne_empty hin, rfl⟩
          · intro c r co s ok h
            simp [List.mem_append] at h
            rw [apiSave_mem_save h]

theorem handleSubmit_only_when_ready_witness :
    jsTrim "hello" ≠ "" ∧ (some "doc1" : Option String).isSome = true ∧
    ("hello" : String) ≠ "" := by
  have h := (handleSubmit_only_when_ready sampleState "t1" "te" true true
      (some sampleResp)).1
    ⟨"hello", [⟨"user", "old"⟩], some 5, some "doc1"⟩ (by decide)
  exact ⟨h.1, h.2.2.1, h.2.2.2.2.1⟩

/-- C10: when the query request fails, the user message was already
persisted (the only accepted Conversation Store append of the turn is
the user message) and the apology reply shown in the UI is appended to
the display but never persisted, so the stored conversation ends with a
user message that has no following assistant message. -/
theorem handleSubmit_failure_dangling_user_turn (st : ChatState)
    (doc cid uts ets : String) (asv : Bool)
    (hdoc : st.selectedDocument = some doc)
    (hcid : st.currentConversationId = some cid)
    (hin : jsTrim st.inputValue ≠ "") (hload : st.isLoading = false) :
    (handleSubmit st uts true none asv ets).2.filter Action.isPersistedSave =
      [Action.apiSaveMessage cid "user" st.inputValue none true] ∧
    (handleSubmit st uts true none asv ets).1.messages =
      st.messages ++ [⟨"user", st.inputValue, uts, none⟩,
                      ⟨"assistant", queryErrorText, ets, none⟩] := by
  rw [handleSubmit_eq_failure st doc cid uts ets true asv hdoc hcid hin hload]
  constructor
  · simp [saveMessageToDatabase, Action.isPersistedSave]
  · rfl

theorem handleSubmit_failure_dangling_user_turn_witness :
    (handleSubmit sampleState "t1" true none true "te").2.filter
        Action.isPersistedSave =
      [Action.apiSaveMessage "conv1" "user" "hello" none true] ∧
    (handleSubmit sampleState "t1" true none true "te").1.messages =
      [⟨"user", "old", "t0", none⟩, ⟨"user", "hello", "t1", none⟩,
       ⟨"assistant", queryErrorText, "te", none⟩] := by
  have h := handleSubmit_failure_dangling_user_turn sampleState "doc1" "conv1"
    "t1" "te" true rfl rfl (by decide) rfl
  exact ⟨h.1, h.2⟩

/-- C1: on chat start for a document, a non-empty conversation list
makes the session reuse the first-listed conversation and issue no
create call, loading its stored messages; an empty list makes it create
exactly one new conversation with an empty message list. -/
theorem loadConversationHistory_reuses_or_creates (documentId : String)
    (env : LoadEnv) (st0 : Option String × List ChatMessage) :
    (∀ latest rest msgs, env.listResult = some (latest :: rest) →
        env.msgsResult latest.id = some msgs →
        (loadConversationHistory documentId env st0).1 =
          (some latest.id, msgs.map storedToChat) ∧
        (loadConversationHistory documentId env st0).2.filter Action.isCreate = []) ∧
    (∀ cid, env.listResult = some [] → env.createResult = some cid →
        (loadConversationHistory documentId env st0).1 = (some cid, []) ∧
        (loadConversationHistory documentId env st0).2.filter Action.isCreate =
          [Action.createConversation documentId true]) := by
  constructor
  · rintro latest rest msgs hl hm
    simp [loadConversationHistory, hl, hm, Action.isCreate]
  · rintro cid hl hc
    simp [loadConversationHistory, hl, hc, Action.isCreate]

theorem loadConversationHistory_reuses_or_creates_witness :
    (loadConversationHistory "d1"
        ⟨some [⟨"c9"⟩, ⟨"c2"⟩], fun _ => some [⟨"user", "hi", "t1", none⟩],
         some "n", some "f"⟩ (none, [])).1 =
      (some "c9", [⟨"user", "hi", "t1", none⟩]) ∧
    (loadConversationHistory "d1"
        ⟨some [⟨"c9"⟩, ⟨"c2"⟩], fun _ => some [⟨"user", "hi", "t1", none⟩],
         some "n", some "f"⟩ (none, [])).2.filter Action.isCreate = [] ∧
    (loadConversationHistory "d1"
        ⟨some [], fun _ => none, some "n", some "f"⟩ (none, [])).1 =
      (some "n", []) ∧
    (loadConversationHistory "d1"
        ⟨some [], fun _ => none, some "n", some "f"⟩ (none, [])).2.filter
        Action.isCreate = [Action.createConversation "d1" true] := by
  have h1 := (loadConversationHistory_reuses_or_creates "d1"
      ⟨some [⟨"c9"⟩, ⟨"c2"⟩], fun _ => some [⟨"user", "hi", "t1", none⟩],
       some "n", some "f"⟩ (none, [])).1
    ⟨"c9"⟩ [⟨"c2"⟩] [⟨"user", "hi", "t1", none⟩] rfl rfl
  have h2 := (loadConversationHistory_reuses_or_creates "d1"
      ⟨some [], fun _ => none, some "n", some "f"⟩ (none, [])).2 "n" rfl rfl
  exact ⟨h1.1, h1.2, h2.1, h2.2⟩

/-- C2 is refuted on the code: on a turn whose assistant-message save
fails, the failure is logged to the console and the response is still
displayed, but the run's component state and user-visible actions are
identical to those of a turn whose saves all succeed — the caller is
never informed that the turn may not have been saved. -/
theorem saveFailure_not_surfaced_cex :
    (handleSubmit sampleState "t1" true (some sampleResp) false "te").2.filter
        Action.isUserVisible =
      (handleSubmit sampleState "t1" true (some sampleResp) true "te").2.filter
        Action.isUserVisible ∧
    (handleSubmit sampleState "t1" true (some sampleResp) false "te").1 =
      (handleSubmit sampleState "t1" true (some sampleResp) true "te").1 ∧
    Action.logError "Failed to save message to database:" ∈
      (handleSubmit sampleState "t1" true (some sampleResp) false "te").2 ∧
    (handleSubmit sampleState "t1" true (some sampleResp) false
        "te").1.messages.getLast? =
      some ⟨"assistant", "answer", "ts1", some ["src1"]⟩ := by
  decide

/-- C2 (amended): when a Conversation Store write fails, the failure is
logged and the user-visible response is still returned, but the caller
is NOT informed that the turn may not have been saved — the component
state and the user-visible actions are exactly those of a run in which
every save succeeds. -/
theorem saveFailure_logged_and_silent (st : ChatState) (doc cid uts ets : String)
    (outcome : Option QueryResponse) (asv : Bool)
    (hdoc : st.selectedDocument = some doc)
    (hcid : st.currentConversationId = some cid)
    (hin : jsTrim st.inputValue ≠ "") (hload : st.isLoading = false) :
    Action.logError "Failed to save message to database:" ∈
      (handleSubmit st uts false outcome asv ets).2 ∧
    (handleSubmit st uts false outcome asv ets).1 =
      (handleSubmit st uts true outcome true ets).1 ∧
    (handleSubmit st uts false outcome asv ets).2.filter Action.isUserVisible =
      (handleSubmit st uts true outcome true ets).2.filter Action.isUserVisible := by
  cases outcome with
  | some resp =>
    rw [handleSubmit_eq_success st doc cid uts ets false asv resp hdoc hcid hin hload,
        handleSubmit_eq_success st doc cid uts ets true true resp hdoc hcid hin hload]
    refine ⟨?_, rfl, ?_⟩
    · simp [saveMessageToDatabase]
    · cases asv <;> simp [saveMessageToDatabase, Action.isUserVisible]
  | none =>
    rw [handleSubmit_eq_failure st doc cid uts ets false asv hdoc hcid hin hload,
        handleSubmit_eq_failure st doc cid uts ets true true hdoc hcid hin hload]
    refine ⟨?_, rfl, ?_⟩
    · simp [saveMessageToDatabase]
    · simp [saveMessageToDatabase, Action.isUserVisible]

theorem saveFailure_logged_and_silent_witness :
    Action.logError "Failed to save message to database:" ∈
      (handleSubmit sampleState "t1" false (some sampleResp) false "te").2 ∧
    (handleSubmit sampleState "t1" false (some sampleResp) false "te").1 =
      (handleSubmit sampleState "t1" true (some sampleResp) true "te").1 := by
  have h := saveFailure_logged_and_silent sampleState "doc1" "conv1" "t1" "te"
    (some sampleResp) false rfl rfl (by decide) rfl
  exact ⟨h.1, h.2.1⟩

/-- C6 is refuted on the code: the `QueryResponse` interface does not
consist of exactly the four fields `response`, `sources`,
`conversation_id`, `timestamp` — two values agreeing on those four
fields can still differ (in `context_used`). -/
theorem queryResponse_extra_field_cex :
    queryResponseFields ≠ ["response", "sources", "conversation_id", "timestamp"] ∧
    (⟨"r", [], ["s"], "c", "t"⟩ : QueryResponse).response =
      (⟨"r", ["ctx"], ["s"], "c", "t"⟩ : QueryResponse).response ∧
    (⟨"r", [], ["s"], "c", "t"⟩ : QueryResponse).sources =
      (⟨"r", ["ctx"], ["s"], "c", "t"⟩ : QueryResponse).sources ∧
    (⟨"r", [], ["s"], "c", "t"⟩ : QueryResponse).conversation_id =
      (⟨"r", ["ctx"], ["s"], "c", "t"⟩ : QueryResponse).conversation_id ∧
    (⟨"r", [], ["s"], "c", "t"⟩ : QueryResponse).timestamp =
      (⟨"r", ["ctx"], ["s"], "c", "t"⟩ : QueryResponse).timestamp ∧
    (⟨"r", [], ["s"], "c", "t"⟩ : QueryResponse) ≠
      (⟨"r", ["ctx"], ["s"], "c", "t"⟩ : QueryResponse) := by
  decide

/-- C6 (amended): the query intake's result consists of exactly the
five fields `response`, `context_used`, `sources`, `conversation_id`
and `timestamp`: these are the declared field names, and two results
agreeing on all five are equal. -/
theorem queryResponse_exact_fields :
    queryResponseFields =
      ["response", "context_used", "sources", "conversation_id", "timestamp"] ∧
    ∀ a b : QueryResponse, a.response = b.response →
      a.context_used = b.context_used → a.sources = b.sources →
      a.conversation_id = b.conversation_id → a.timestamp = b.timestamp →
      a = b := by
  refine ⟨rfl, ?_⟩
  intro a b h1 h2 h3 h4 h5
  cases a; cases b; simp_all

theorem queryResponse_exact_fields_witness :
    (⟨"r", ["c"], ["s"], "i", "t"⟩ : QueryResponse) =
      ⟨"r", ["c"], ["s"], "i", "t"⟩ :=
  queryResponse_exact_fields.2 _ _ rfl rfl rfl rfl rfl

/-- C7: the stats query is a read-only boundary: `SystemStats` exposes
exactly `total_documents` and `total_chunks`, fetching stats changes no
document, message or conversation state and performs no write call, and
rendering stats emits no actions at all. -/
theorem stats_read_only (st : ClientState) (fetched : Option SystemStats)
    (s : SystemStats) :
    systemStatsFields = ["total_documents", "total_chunks"] ∧
    (fetchStats st fetched).1.documents = st.documents ∧
    (fetchStats st fetched).1.messages = st.messages ∧
    (fetchStats st fetched).1.currentConversationId = st.currentConversationId ∧
    (fetchStats st fetched).2.filter Action.isWrite = [] ∧
    (renderSystemStats s).1 = [] := by
  cases fetched <;>
    simp [fetchStats, renderSystemStats, Action.isWrite, systemStatsFields]

/-- C8: a file whose computed extension is neither ".pdf" nor ".txt"
(the extension is lowercased before the check), or whose size exceeds
10*1024*1024 bytes, is rejected before any upload request is issued:
the trace contains no upload, `setIsUploading` is never touched, and
the only emitted action is the error toast. -/
theorem handleFileUpload_rejects_invalid (name : String) (size : Nat)
    (uploadOk : Bool)
    (h : (fileExtension name ≠ ".pdf" ∧ fileExtension name ≠ ".txt") ∨
         10 * 1024 * 1024 < size) :
    (handleFileUpload name size uploadOk).2.filter Action.isUpload = [] ∧
    (handleFileUpload name size uploadOk).1 = false ∧
    ∃ msg, (handleFileUpload name size uploadOk).2 = [Action.toastError msg] := by
  by_cases hc : allowedTypes.contains (fileExtension name) = false
  · unfold handleFileUpload
    rw [if_pos hc]
    exact ⟨rfl, rfl, _, rfl⟩
  · rw [Bool.not_eq_false] at hc
    have hext : fileExtension name = ".txt" ∨ fileExtension name = ".pdf" := by
      simpa [allowedTypes] using hc
    have hsize : 10 * 1024 * 1024 < size := by
      rcases h with ⟨h1, h2⟩ | hs
      · rcases hext with he | he
        · exact absurd he h2
        · exact absurd he h1
      · exact hs
    unfold handleFileUpload
    rw [if_neg (by rw [hc]; simp), if_pos hsize]
    exact ⟨rfl, rfl, _, rfl⟩

theorem handleFileUpload_rejects_invalid_witness :
    (handleFileUpload "doc.docx" 1 true).2.filter Action.isUpload = [] ∧
    (handleFileUpload "doc.docx" 1 true).1 = false ∧
    ∃ msg, (handleFileUpload "doc.docx" 1 true).2 = [Action.toastError msg] :=
  handleFileUpload_rejects_invalid "doc.docx" 1 true
    (Or.inl ⟨by decide, by decide⟩)

end RagMini
